import Mathlib

/-!
Shallow embedding of the weather-monitoring core of `src/weather_monitor.py`.

Python floats are modelled as rationals (`ℚ`), Python ints as `Int`/`Nat`,
strings as `String`.  The sqlite tables `weather_data` and `daily_summaries`
are modelled as append-only lists of rows (an `INSERT` is a list append, and
the auto-increment `id` column is the list position, which we drop).  The
in-memory dict `consecutive_breaches` is a total function `String → Int`.
Raised Python exceptions are modelled with `Except`; a `try/except` block
that returns `None` on any raised exception becomes a total function into
`Option`.
-/

set_option maxRecDepth 4000

/-- The `email_config` dict of `Config.__post_init__`: keys in insertion
order are `smtp_server`, `smtp_port`, `sender_email`, `sender_password`,
`recipient_email`. -/
structure EmailConfig where
  smtpServer : String
  smtpPort : Nat
  senderEmail : String
  senderPassword : String
  recipientEmail : String
deriving DecidableEq

/-- The `Config` dataclass of `weather_monitor.py`. -/
structure Config where
  apiKey : String
  intervalMinutes : Int
  temperatureUnit : String
  cities : List String
  emailConfig : EmailConfig
  tempThreshold : ℚ
  consecutiveThresholdBreaches : Int

/-- Default city list installed by `Config.__post_init__`. -/
def defaultCities : List String :=
  ["Delhi", "Mumbai", "Chennai", "Bangalore", "Kolkata", "Hyderabad"]

/-- Default `email_config` installed by `Config.__post_init__` (the three
identity/credential strings are empty). -/
def defaultEmailConfig : EmailConfig :=
  ⟨"smtp.gmail.com", 587, "", "", ""⟩

/-- The configuration built in `main()`: unit `celsius`, threshold `35.0`,
two consecutive breaches required, default cities and email settings. -/
def cfgMain : Config :=
  ⟨"", 5, "celsius", defaultCities, defaultEmailConfig, 35, 2⟩

/-- A row of the `weather_data` table: `(city, timestamp, main, temp,
feels_like)`, dropping the auto-increment `id`. -/
structure ObsRow where
  city : String
  timestamp : Int
  main : String
  temp : ℚ
  feelsLike : ℚ
deriving DecidableEq

/-- A row of the `daily_summaries` table: `(city, date, avg_temp, max_temp,
min_temp, dominant_weather)`, dropping the auto-increment `id`.  The SQL
`date` string `YYYY-MM-DD` is modelled as the UTC day number (see `dayOf`),
which is in bijection with it. -/
structure SummaryRow where
  city : String
  date : Int
  avgTemp : ℚ
  maxTemp : ℚ
  minTemp : ℚ
  dominantWeather : String
deriving DecidableEq

/-- The mutable state of the process seen by the core: the two sqlite
tables of `WeatherDB` plus the in-memory `consecutive_breaches` dict of
`WeatherMonitor` (a total function, `0` outside the configured cities,
matching `{city: 0 for city in config.cities}`). -/
structure SysState where
  weatherData : List ObsRow
  summaries : List SummaryRow
  breaches : String → Int

/-- Initial breach counts: `0` for every city. -/
def initZero : String → Int := fun _ => 0

/-- Calendar-day key of an epoch timestamp, as used by
`date(timestamp, "unixepoch")` in `WeatherDB.get_daily_data`: the UTC day
number stands in for the `YYYY-MM-DD` string (timezone handling of
`datetime.fromtimestamp` is abstracted to UTC). -/
def dayOf (ts : Int) : Int := ts.fdiv 86400

/-- Hour-of-day of an epoch timestamp (`datetime.fromtimestamp(ts).hour`,
timezone abstracted to UTC). -/
def hourOf (ts : Int) : Int := (ts.emod 86400).fdiv 3600

/-- Minute-of-hour of an epoch timestamp (`datetime.fromtimestamp(ts).minute`). -/
def minuteOf (ts : Int) : Int := (ts.emod 3600).fdiv 60

/-- `WeatherMonitor.kelvin_to_celsius`. -/
def kelvin_to_celsius (kelvin : ℚ) : ℚ := kelvin - 273.15

/-- `WeatherMonitor.kelvin_to_fahrenheit`. -/
def kelvin_to_fahrenheit (kelvin : ℚ) : ℚ := (kelvin - 273.15) * 9 / 5 + 32

/-- `WeatherMonitor.convert_temperature`: dispatch on the configured unit;
anything other than the exact string `celsius` falls through to the
Fahrenheit branch. -/
def convert_temperature (cfg : Config) (kelvin : ℚ) : ℚ :=
  if cfg.temperatureUnit = "celsius" then kelvin_to_celsius kelvin
  else kelvin_to_fahrenheit kelvin

/-- Pointwise update of the `consecutive_breaches` dict. -/
def updateCount (st : String → Int) (city : String) (n : Int) : String → Int :=
  fun c => if c = city then n else st c

/-- `WeatherMonitor.check_temperature_threshold`, as a pure transition on
the breach-count dict.  The returned `Bool` records whether
`trigger_alert` was called. -/
def check_temperature_threshold (cfg : Config) (st : String → Int)
    (city : String) (temp : ℚ) : (String → Int) × Bool :=
  if cfg.tempThreshold < temp then
    let n := st city + 1
    (updateCount st city n, decide (cfg.consecutiveThresholdBreaches ≤ n))
  else
    (updateCount st city 0, false)

/-- Feed a list of readings for one city through
`check_temperature_threshold`, recording after each reading the city's
breach count and whether an alert fired. -/
def traceReadings (cfg : Config) (city : String) :
    (String → Int) → List ℚ → List (Int × Bool)
  | _, [] => []
  | st, t :: ts =>
    let r := check_temperature_threshold cfg st city t
    (r.1 city, r.2) :: traceReadings cfg city r.1 ts


/-- The `weather_severity` dict of `calculate_daily_summary`, read through
`weather_severity.get(x, 0)`: unranked strings get `0`, as does `Clear`. -/
def weatherSeverity (c : String) : Nat :=
  if c = "Thunderstorm" then 5
  else if c = "Snow" then 4
  else if c = "Rain" then 3
  else if c = "Drizzle" then 2
  else if c = "Clouds" then 1
  else 0

/-- Distinct elements of a list in first-occurrence order: the iteration
order of a Python `Counter` built from the list. -/
def firstOccurrences : List String → List String
  | [] => []
  | c :: cs => c :: (firstOccurrences cs).filter (fun x => decide (x ≠ c))

/-- The `(element, count)` pairs of `Counter(conds)`, in the Counter's
iteration order (first occurrence). -/
def counterItems (conds : List String) : List (String × Nat) :=
  (firstOccurrences conds).map (fun c => (c, conds.count c))

/-- Stable insertion into a count-descending list: the inserted pair goes
before the first pair of equal-or-smaller count, preserving the relative
order of equal counts. -/
def insertByCount (p : String × Nat) : List (String × Nat) → List (String × Nat)
  | [] => [p]
  | q :: qs => if q.2 ≤ p.2 then p :: q :: qs else q :: insertByCount p qs

/-- Stable sort by count, descending.  Together with `counterItems` this is
`Counter(conds).most_common()`: counts descending, ties kept in
first-occurrence order (Python's `sorted` is stable). -/
def sortByCountDesc : List (String × Nat) → List (String × Nat)
  | [] => []
  | p :: ps => insertByCount p (sortByCountDesc ps)

/-- `Counter(weather_conditions).most_common()`. -/
def mostCommon (conds : List String) : List (String × Nat) :=
  sortByCountDesc (counterItems conds)

/-- Python's `max(x :: xs, key=f)`: the first element attaining the
maximal key (on key ties `max` keeps the earlier element). -/
def pyMaxBy (f : String → Nat) (x : String) (xs : List String) : String :=
  xs.foldl (fun best c => if f best < f c then c else best) x

/-- The dominant-weather computation of `calculate_daily_summary`
(lines 165-184): take `most_common`; if the top two counts tie, collect
all conditions at the top count and take Python's `max` by severity,
otherwise take the top condition.  `none` only for an empty input, which
the caller has already excluded. -/
def dominantWeather (conds : List String) : Option String :=
  match mostCommon conds with
  | [] => none
  | (c0, n0) :: rest =>
    match rest with
    | [] => some c0
    | (_, n1) :: _ =>
      if n0 = n1 then
        some (pyMaxBy weatherSeverity c0
          (rest.filterMap (fun p => if p.2 = n0 then some p.1 else none)))
      else some c0

/-- Python `max` over a nonempty list of rationals, as a fold. -/
def listMaxQ (x : ℚ) (xs : List ℚ) : ℚ := xs.foldl max x

/-- Python `min` over a nonempty list of rationals, as a fold. -/
def listMinQ (x : ℚ) (xs : List ℚ) : ℚ := xs.foldl min x

/-- The pure part of `WeatherMonitor.calculate_daily_summary`: from the
rows returned by `get_daily_data`, compute the summary row that
`store_daily_summary` receives (`temperatures = [row[4] ...]`,
`weather_conditions = [row[3] ...]`, `avg = sum/len`, `max`, `min`,
dominant weather as in `dominantWeather`).  `none` when there are no rows
(the early `return`). -/
def calcSummary (city : String) (date : Int) (rows : List ObsRow) :
    Option SummaryRow :=
  match rows with
  | [] => none
  | r0 :: rs =>
    let temps : List ℚ := r0.temp :: rs.map ObsRow.temp
    let avgTemp := temps.sum / (temps.length : ℚ)
    let maxTemp := listMaxQ r0.temp (rs.map ObsRow.temp)
    let minTemp := listMinQ r0.temp (rs.map ObsRow.temp)
    match dominantWeather (r0.main :: rs.map ObsRow.main) with
    | none => none
    | some dw => some ⟨city, date, avgTemp, maxTemp, minTemp, dw⟩

/-- `WeatherDB.get_daily_data`: the rows of `weather_data` with this city
whose timestamp falls on this calendar day. -/
def get_daily_data (σ : SysState) (city : String) (date : Int) : List ObsRow :=
  σ.weatherData.filter (fun r => r.city == city && dayOf r.timestamp == date)

/-- `WeatherDB.store_weather_data`: a plain `INSERT`, i.e. append. -/
def store_weather_data (σ : SysState) (r : ObsRow) : SysState :=
  ⟨σ.weatherData ++ [r], σ.summaries, σ.breaches⟩

/-- `WeatherDB.store_daily_summary`: a plain `INSERT` into
`daily_summaries`, i.e. append — there is no uniqueness constraint on
`(city, date)` and no `UPDATE`/upsert. -/
def store_daily_summary (σ : SysState) (s : SummaryRow) : SysState :=
  ⟨σ.weatherData, σ.summaries ++ [s], σ.breaches⟩

/-- `WeatherMonitor.calculate_daily_summary` as a state transition: read
the day's rows, and unless they are empty compute the summary and store
it. -/
def calculate_daily_summary (σ : SysState) (city : String) (date : Int) :
    SysState :=
  match calcSummary city date (get_daily_data σ city date) with
  | none => σ
  | some s => store_daily_summary σ s


/-- The slice of a parsed provider JSON payload that
`process_weather_data` reads.  Each `Option` field models one dict/list
access path: `none` means the access would raise (`KeyError` for a
missing key, `IndexError` for `weather[0]` on an empty list).
`hasOtherKeys` records whether the dict holds any key beyond the modelled
ones, so that Python's truthiness test `if not data` (false exactly for a
non-empty dict) is expressible. -/
structure Payload where
  mainTemp : Option ℚ
  mainFeelsLike : Option ℚ
  weatherMain : Option String
  dt : Option Int
  hasOtherKeys : Bool
deriving DecidableEq

/-- Truthiness of the payload dict: non-empty iff it has any key. -/
def Payload.isTruthy (d : Payload) : Bool :=
  d.mainTemp.isSome || d.mainFeelsLike.isSome || d.weatherMain.isSome ||
    d.dt.isSome || d.hasOtherKeys

/-- Outcome of the HTTP interaction inside `fetch_weather_data`'s `try`
block: either `requests.get` itself raised, or it returned a response
with a status code and a body (`none` body: `response.json()` raised on
an unparseable body). -/
inductive FetchAttempt where
  | transportError : FetchAttempt
  | response (status : Nat) (body : Option Payload) : FetchAttempt

/-- An uncaught Python exception of `process_weather_data`: a missing
dict key or list index while destructuring the payload. -/
inductive PyErr where
  | keyError : PyErr
deriving DecidableEq

/-- `WeatherMonitor.fetch_weather_data`: every exception raised inside the
`try` block (transport error, `raise_for_status` on a status `≥ 400`,
JSON decode failure) is caught and turned into `None`; any parsed body of
a non-error status is returned as-is, unvalidated. -/
def fetch_weather_data : FetchAttempt → Option Payload
  | .transportError => none
  | .response status body => if 400 ≤ status then none else body

/-- `WeatherMonitor.process_weather_data`: early return on a falsy `data`
(`None` or an empty dict); otherwise destructure the payload (raising
`KeyError`/`IndexError` on a missing field, modelled as `.error`),
convert the temperatures, append the observation row, run the threshold
check, and run the daily summary when the timestamp lies in the last five
minutes of its day. -/
def process_weather_data (cfg : Config) (σ : SysState) (city : String)
    (data : Option Payload) : Except PyErr SysState :=
  match data with
  | none => .ok σ
  | some d =>
    if d.isTruthy = false then .ok σ
    else
      match d.mainTemp, d.mainFeelsLike, d.weatherMain, d.dt with
      | some rawTemp, some rawFeels, some mainWeather, some ts =>
        let temp := convert_temperature cfg rawTemp
        let feelsLike := convert_temperature cfg rawFeels
        let σ1 := store_weather_data σ ⟨city, ts, mainWeather, temp, feelsLike⟩
        let σ2 : SysState :=
          ⟨σ1.weatherData, σ1.summaries,
            (check_temperature_threshold cfg σ1.breaches city temp).1⟩
        .ok (if hourOf ts = 23 ∧ 55 ≤ minuteOf ts then
              calculate_daily_summary σ2 city (dayOf ts)
            else σ2)
      | _, _, _, _ => .error .keyError

/-- One pass of the `for city in self.config.cities` loop of
`WeatherMonitor.run`, over an explicit city list: fetch then process each
city in order.  An uncaught exception aborts the remaining cities (there
is no `try` around the loop body). -/
def runCycleList (cfg : Config) (fetches : String → FetchAttempt)
    (σ : SysState) : List String → Except PyErr SysState
  | [] => .ok σ
  | city :: rest =>
    match process_weather_data cfg σ city (fetch_weather_data (fetches city)) with
    | .error e => .error e
    | .ok σ2 => runCycleList cfg fetches σ2 rest

/-- One full cycle of `WeatherMonitor.run` over the configured cities. -/
def runCycle (cfg : Config) (fetches : String → FetchAttempt)
    (σ : SysState) : Except PyErr SysState :=
  runCycleList cfg fetches σ cfg.cities

/-- Whether a cycle ended in an uncaught exception. -/
def cycleFails : Except PyErr SysState → Bool
  | .error _ => true
  | .ok _ => false

/-- The cities of the observation rows held after a cycle (`none` when the
cycle ended in an uncaught exception). -/
def cycleObsCities : Except PyErr SysState → Option (List String)
  | .error _ => none
  | .ok σ => some (σ.weatherData.map ObsRow.city)

/-- Outcome of the SMTP session inside `send_email_alert`'s `try` block. -/
inductive SmtpOutcome where
  | delivered : SmtpOutcome
  | raises : SmtpOutcome

/-- What `send_email_alert` did; its Python return value is always `None`,
never a raised exception. -/
inductive EmailResult where
  | skippedIncomplete : EmailResult
  | sent : EmailResult
  | errorLogged : EmailResult
deriving DecidableEq

/-- The guard `all(self.config.email_config.values())`: every value of the
`email_config` dict is truthy (non-empty strings, non-zero port). -/
def emailConfigComplete (ec : EmailConfig) : Bool :=
  (ec.smtpServer != "") && (ec.smtpPort != 0) && (ec.senderEmail != "") &&
    (ec.senderPassword != "") && (ec.recipientEmail != "")

/-- `WeatherMonitor.send_email_alert`: skip when any config value is
falsy; otherwise attempt the send, catching and logging any raised
exception. -/
def send_email_alert (ec : EmailConfig) (transport : SmtpOutcome) : EmailResult :=
  if emailConfigComplete ec = false then .skippedIncomplete
  else
    match transport with
    | .delivered => .sent
    | .raises => .errorLogged

theorem mem_insertByCount {p q : String × Nat} :
    ∀ {l : List (String × Nat)}, q ∈ insertByCount p l ↔ q = p ∨ q ∈ l := by
  intro l
  induction l with
  | nil => simp [insertByCount]
  | cons r rs ih =>
    by_cases hr : r.2 ≤ p.2
    · simp only [insertByCount, if_pos hr, List.mem_cons]
    · simp only [insertByCount, if_neg hr, List.mem_cons, ih]
      tauto

theorem insertByCount_ne_nil (p : String × Nat) :
    ∀ l : List (String × Nat), insertByCount p l ≠ [] := by
  intro l
  cases l with
  | nil => simp [insertByCount]
  | cons r rs =>
    by_cases hr : r.2 ≤ p.2 <;> simp [insertByCount, hr]

theorem pairwise_insertByCount {p : String × Nat} :
    ∀ {l : List (String × Nat)},
      l.Pairwise (fun a b => b.2 ≤ a.2) →
      (insertByCount p l).Pairwise (fun a b => b.2 ≤ a.2) := by
  intro l
  induction l with
  | nil => intro _; simp [insertByCount]
  | cons r rs ih =>
    intro hpw
    obtain ⟨hr1, hr2⟩ := List.pairwise_cons.mp hpw
    by_cases hr : r.2 ≤ p.2
    · rw [insertByCount, if_pos hr]
      refine List.pairwise_cons.mpr ⟨?_, hpw⟩
      intro b hb
      rcases List.mem_cons.mp hb with hb | hb
      · exact hb ▸ hr
      · exact le_trans (hr1 b hb) hr
    · rw [insertByCount, if_neg hr]
      refine List.pairwise_cons.mpr ⟨?_, ih hr2⟩
      intro b hb
      rcases mem_insertByCount.mp hb with hb | hb
      · exact hb ▸ le_of_lt (lt_of_not_le hr)
      · exact hr1 b hb

theorem sortByCountDesc_pairwise :
    ∀ l : List (String × Nat),
      (sortByCountDesc l).Pairwise (fun a b => b.2 ≤ a.2)
  | [] => by simp [sortByCountDesc]
  | p :: ps => by
    rw [sortByCountDesc]
    exact pairwise_insertByCount (sortByCountDesc_pairwise ps)

theorem mem_sortByCountDesc {q : String × Nat} :
    ∀ {l : List (String × Nat)}, q ∈ sortByCountDesc l ↔ q ∈ l := by
  intro l
  induction l with
  | nil => simp [sortByCountDesc]
  | cons p ps ih =>
    rw [sortByCountDesc]
    rw [mem_insertByCount, List.mem_cons, ih]

theorem mem_firstOccurrences {c : String} :
    ∀ {l : List String}, c ∈ firstOccurrences l ↔ c ∈ l := by
  intro l
  induction l with
  | nil => simp [firstOccurrences]
  | cons a as ih =>
    simp only [firstOccurrences, List.mem_cons, List.mem_filter,
      decide_eq_true_eq]
    constructor
    · rintro (rfl | ⟨hmem, _⟩)
      · exact Or.inl rfl
      · exact Or.inr (ih.mp hmem)
    · rintro (rfl | h)
      · exact Or.inl rfl
      · by_cases hc : c = a
        · exact Or.inl hc
        · exact Or.inr ⟨ih.mpr h, hc⟩

theorem mem_counterItems {q : String × Nat} {conds : List String} :
    q ∈ counterItems conds ↔ q.1 ∈ conds ∧ q.2 = conds.count q.1 := by
  obtain ⟨c, n⟩ := q
  simp only [counterItems, List.mem_map, Prod.mk.injEq]
  constructor
  · rintro ⟨a, ha, rfl, rfl⟩
    exact ⟨mem_firstOccurrences.mp ha, rfl⟩
  · rintro ⟨hc, rfl⟩
    exact ⟨c, mem_firstOccurrences.mpr hc, rfl, rfl⟩

theorem mem_mostCommon {q : String × Nat} {conds : List String} :
    q ∈ mostCommon conds ↔ q.1 ∈ conds ∧ q.2 = conds.count q.1 := by
  rw [mostCommon, mem_sortByCountDesc, mem_counterItems]

theorem mostCommon_ne_nil {conds : List String} (h : conds ≠ []) :
    mostCommon conds ≠ [] := by
  cases conds with
  | nil => exact absurd rfl h
  | cons c cs =>
    rw [mostCommon, counterItems, firstOccurrences, List.map_cons,
      sortByCountDesc]
    exact insertByCount_ne_nil _ _

theorem pyMaxBy_eq_or_mem (f : String → Nat) :
    ∀ (xs : List String) (x : String),
      pyMaxBy f x xs = x ∨ pyMaxBy f x xs ∈ xs
  | [], _ => Or.inl rfl
  | y :: ys, x => by
    have hrec := pyMaxBy_eq_or_mem f ys (if f x < f y then y else x)
    have hstep : pyMaxBy f x (y :: ys) =
        pyMaxBy f (if f x < f y then y else x) ys := by
      simp only [pyMaxBy, List.foldl_cons]
    rw [hstep]
    rcases hrec with h | h
    · rw [h]
      by_cases hxy : f x < f y
      · rw [if_pos hxy]; exact Or.inr (List.mem_cons_self _ _)
      · rw [if_neg hxy]; exact Or.inl rfl
    · exact Or.inr (List.mem_cons_of_mem _ h)

theorem le_pyMaxBy (f : String → Nat) :
    ∀ (xs : List String) (x : String),
      f x ≤ f (pyMaxBy f x xs) ∧ ∀ y ∈ xs, f y ≤ f (pyMaxBy f x xs)
  | [], _ => ⟨le_refl _, by simp⟩
  | y :: ys, x => by
    have hrec := le_pyMaxBy f ys (if f x < f y then y else x)
    have hstep : pyMaxBy f x (y :: ys) =
        pyMaxBy f (if f x < f y then y else x) ys := by
      simp only [pyMaxBy, List.foldl_cons]
    rw [hstep]
    have hx : f x ≤ f (if f x < f y then y else x) := by
      by_cases hxy : f x < f y
      · rw [if_pos hxy]; exact le_of_lt hxy
      · rw [if_neg hxy]
    have hy : f y ≤ f (if f x < f y then y else x) := by
      by_cases hxy : f x < f y
      · rw [if_pos hxy]
      · rw [if_neg hxy]; exact le_of_not_lt hxy
    refine ⟨le_trans hx hrec.1, ?_⟩
    intro z hz
    rcases List.mem_cons.mp hz with rfl | hz
    · exact le_trans hy hrec.1
    · exact hrec.2 z hz

/-- Characterization of the dominant-weather computation for a nonempty
condition list: the result is a condition of the list, of maximal
frequency, and of maximal severity among the conditions that attain the
maximal frequency. -/
theorem dominantWeather_spec (conds : List String) (h : conds ≠ []) :
    ∃ d, dominantWeather conds = some d ∧ d ∈ conds ∧
      (∀ c ∈ conds, conds.count c ≤ conds.count d) ∧
      (∀ c ∈ conds, conds.count c = conds.count d →
        weatherSeverity c ≤ weatherSeverity d) := by
  obtain ⟨⟨c0, n0⟩, rest, hmc⟩ :
      ∃ p rest, mostCommon conds = p :: rest := by
    cases hm : mostCommon conds with
    | nil => exact absurd hm (mostCommon_ne_nil h)
    | cons p rest => exact ⟨p, rest, rfl⟩
  have hpw : ((c0, n0) :: rest).Pairwise
      (fun a b : String × Nat => b.2 ≤ a.2) := by
    rw [← hmc]; exact sortByCountDesc_pairwise _
  have hrest_le : ∀ q ∈ rest, q.2 ≤ n0 := (List.pairwise_cons.mp hpw).1
  have hhead : c0 ∈ conds ∧ n0 = conds.count c0 := by
    have hm0 : ((c0, n0) : String × Nat) ∈ mostCommon conds := by
      rw [hmc]; exact List.mem_cons_self _ _
    exact mem_mostCommon.mp hm0
  have hmax : ∀ c ∈ conds, conds.count c ≤ n0 := by
    intro c hc
    have hm0 : ((c, conds.count c) : String × Nat) ∈ mostCommon conds :=
      mem_mostCommon.mpr ⟨hc, rfl⟩
    rw [hmc] at hm0
    rcases List.mem_cons.mp hm0 with heq | hmem
    · rw [(Prod.mk.injEq _ _ _ _).mp heq |>.2]
    · exact hrest_le _ hmem
  have hn0_mem : ∀ c, c ∈ conds → conds.count c = n0 →
      ((c, n0) : String × Nat) ∈ (c0, n0) :: rest := by
    intro c hc hcount
    rw [← hmc]
    exact mem_mostCommon.mpr ⟨hc, hcount.symm⟩
  cases rest with
  | nil =>
    refine ⟨c0, ?_, hhead.1, ?_, ?_⟩
    · rw [dominantWeather, hmc]
    · intro c hc; rw [← hhead.2]; exact hmax c hc
    · intro c hc hcc
      have hc0 : conds.count c = n0 := by rw [hcc, ← hhead.2]
      have hm0 := hn0_mem c hc hc0
      have hceq : c = c0 := by
        rcases List.mem_cons.mp hm0 with heq | hmem
        · exact ((Prod.mk.injEq _ _ _ _).mp heq).1
        · exact absurd hmem (List.not_mem_nil _)
      rw [hceq]
  | cons p1 rest' =>
    obtain ⟨c1, n1⟩ := p1
    by_cases htie : n0 = n1
    · have hdom : dominantWeather conds =
          some (pyMaxBy weatherSeverity c0
            (((c1, n1) :: rest').filterMap
              (fun p => if p.2 = n0 then some p.1 else none))) := by
        rw [dominantWeather, hmc]
        show (if n0 = n1 then
            some (pyMaxBy weatherSeverity c0
              (((c1, n1) :: rest').filterMap
                (fun p => if p.2 = n0 then some p.1 else none)))
          else some c0) = _
        rw [if_pos htie]
      have htt_mem : ∀ x ∈ ((c1, n1) :: rest').filterMap
          (fun p => if p.2 = n0 then some p.1 else none),
          x ∈ conds ∧ conds.count x = n0 := by
        intro x hx
        obtain ⟨p, hp, hpx⟩ := List.mem_filterMap.mp hx
        by_cases hpn : p.2 = n0
        · rw [if_pos hpn, Option.some.injEq] at hpx
          have hpm : p ∈ mostCommon conds := by
            rw [hmc]; exact List.mem_cons_of_mem _ hp
          have hpc := mem_mostCommon.mp hpm
          subst hpx
          exact ⟨hpc.1, by rw [← hpc.2, hpn]⟩
        · rw [if_neg hpn] at hpx
          exact absurd hpx (Option.noConfusion)
      have hd_mem :
          pyMaxBy weatherSeverity c0
            (((c1, n1) :: rest').filterMap
              (fun p => if p.2 = n0 then some p.1 else none)) ∈ conds ∧
          conds.count (pyMaxBy weatherSeverity c0
            (((c1, n1) :: rest').filterMap
              (fun p => if p.2 = n0 then some p.1 else none))) = n0 := by
        rcases pyMaxBy_eq_or_mem weatherSeverity _ c0 with he | he
        · rw [he]; exact ⟨hhead.1, hhead.2.symm⟩
        · exact htt_mem _ he
      refine ⟨_, hdom, hd_mem.1, ?_, ?_⟩
      · intro c hc; rw [hd_mem.2]; exact hmax c hc
      · intro c hc hcc
        rw [hd_mem.2] at hcc
        have hcm := hn0_mem c hc hcc
        rcases List.mem_cons.mp hcm with heq | hmem
        · have hceq : c = c0 := ((Prod.mk.injEq _ _ _ _).mp heq).1
          rw [hceq]
          exact (le_pyMaxBy weatherSeverity _ c0).1
        · have hct : c ∈ ((c1, n1) :: rest').filterMap
              (fun p => if p.2 = n0 then some p.1 else none) :=
            List.mem_filterMap.mpr ⟨(c, n0), hmem, by rw [if_pos rfl]⟩
          exact (le_pyMaxBy weatherSeverity _ c0).2 c hct
    · have hdom : dominantWeather conds = some c0 := by
        rw [dominantWeather, hmc]
        show (if n0 = n1 then
            some (pyMaxBy weatherSeverity c0
              (((c1, n1) :: rest').filterMap
                (fun p => if p.2 = n0 then some p.1 else none)))
          else some c0) = _
        rw [if_neg htie]
      refine ⟨c0, hdom, hhead.1, ?_, ?_⟩
      · intro c hc; rw [← hhead.2]; exact hmax c hc
      · intro c hc hcc
        have hc0 : conds.count c = n0 := by rw [hcc, ← hhead.2]
        have hcm := hn0_mem c hc hc0
        rcases List.mem_cons.mp hcm with heq | hmem
        · rw [((Prod.mk.injEq _ _ _ _).mp heq).1]
        · have hn1 : n1 ≤ n0 := hrest_le _ (List.mem_cons_self _ _)
          have hpw' := (List.pairwise_cons.mp hpw).2
          have hr' : ∀ q ∈ rest', q.2 ≤ n1 := (List.pairwise_cons.mp hpw').1
          rcases List.mem_cons.mp hmem with heq1 | hmem1
          · exact absurd ((Prod.mk.injEq _ _ _ _).mp heq1).2 htie
          · exact absurd (le_antisymm (hr' _ hmem1) hn1) htie

/-- The breach-count states reachable from process start: counts start at
`0` and evolve only through `check_temperature_threshold` on configured
cities. -/
inductive ReachableBreach (cfg : Config) : (String → Int) → Prop where
  | init : ReachableBreach cfg initZero
  | step (st : String → Int) (city : String) (temp : ℚ)
      (h : ReachableBreach cfg st) (hc : city ∈ cfg.cities) :
      ReachableBreach cfg (check_temperature_threshold cfg st city temp).1

theorem listMaxQ_eq_or_mem : ∀ (xs : List ℚ) (x : ℚ),
    listMaxQ x xs = x ∨ listMaxQ x xs ∈ xs
  | [], _ => Or.inl rfl
  | y :: ys, x => by
    have hrec := listMaxQ_eq_or_mem ys (max x y)
    have hstep : listMaxQ x (y :: ys) = listMaxQ (max x y) ys := by
      simp only [listMaxQ, List.foldl_cons]
    rw [hstep]
    rcases hrec with h | h
    · rw [h]
      rcases max_choice x y with hm | hm
      · rw [hm]; exact Or.inl rfl
      · rw [hm]; exact Or.inr (List.mem_cons_self _ _)
    · exact Or.inr (List.mem_cons_of_mem _ h)

theorem le_listMaxQ : ∀ (xs : List ℚ) (x : ℚ),
    x ≤ listMaxQ x xs ∧ ∀ y ∈ xs, y ≤ listMaxQ x xs
  | [], _ => ⟨le_refl _, by simp⟩
  | y :: ys, x => by
    have hrec := le_listMaxQ ys (max x y)
    have hstep : listMaxQ x (y :: ys) = listMaxQ (max x y) ys := by
      simp only [listMaxQ, List.foldl_cons]
    rw [hstep]
    refine ⟨le_trans (le_max_left x y) hrec.1, ?_⟩
    intro z hz
    rcases List.mem_cons.mp hz with rfl | hz
    · exact le_trans (le_max_right x z) hrec.1
    · exact hrec.2 z hz

theorem listMinQ_eq_or_mem : ∀ (xs : List ℚ) (x : ℚ),
    listMinQ x xs = x ∨ listMinQ x xs ∈ xs
  | [], _ => Or.inl rfl
  | y :: ys, x => by
    have hrec := listMinQ_eq_or_mem ys (min x y)
    have hstep : listMinQ x (y :: ys) = listMinQ (min x y) ys := by
      simp only [listMinQ, List.foldl_cons]
    rw [hstep]
    rcases hrec with h | h
    · rw [h]
      rcases min_choice x y with hm | hm
      · rw [hm]; exact Or.inl rfl
      · rw [hm]; exact Or.inr (List.mem_cons_self _ _)
    · exact Or.inr (List.mem_cons_of_mem _ h)

theorem listMinQ_le : ∀ (xs : List ℚ) (x : ℚ),
    listMinQ x xs ≤ x ∧ ∀ y ∈ xs, listMinQ x xs ≤ y
  | [], _ => ⟨le_refl _, by simp⟩
  | y :: ys, x => by
    have hrec := listMinQ_le ys (min x y)
    have hstep : listMinQ x (y :: ys) = listMinQ (min x y) ys := by
      simp only [listMinQ, List.foldl_cons]
    rw [hstep]
    refine ⟨le_trans hrec.1 (min_le_left x y), ?_⟩
    intro z hz
    rcases List.mem_cons.mp hz with rfl | hz
    · exact le_trans hrec.1 (min_le_right x z)
    · exact hrec.2 z hz

/-- C3: a reading strictly above the threshold increments the city's
breach count by 1 and calls `trigger_alert` exactly when the new count
reaches the configured consecutive-breach count (so it keeps firing on
every further breaching reading); a reading not above the threshold
resets the count to 0 and fires no alert; and the reading sequence
`[36.0, 37.0, 30.0]` at threshold `35.0` with required count `2` yields
counts `[1, 2, 0]` with the alert fired exactly on the second reading. -/
theorem threshold_breach_spec :
    (∀ (cfg : Config) (st : String → Int) (city : String) (temp : ℚ),
      cfg.tempThreshold < temp →
        (check_temperature_threshold cfg st city temp).1 city = st city + 1 ∧
        ((check_temperature_threshold cfg st city temp).2 = true ↔
          cfg.consecutiveThresholdBreaches ≤ st city + 1)) ∧
    (∀ (cfg : Config) (st : String → Int) (city : String) (temp : ℚ),
      ¬ cfg.tempThreshold < temp →
        (check_temperature_threshold cfg st city temp).1 city = 0 ∧
        (check_temperature_threshold cfg st city temp).2 = false) ∧
    traceReadings cfgMain "Delhi" initZero [36, 37, 30] =
      [(1, false), (2, true), (0, false)] := by
  refine ⟨?_, ?_, by decide⟩
  · intro cfg st city temp h
    rw [check_temperature_threshold, if_pos h]
    refine ⟨by simp [updateCount], ?_⟩
    exact decide_eq_true_iff
  · intro cfg st city temp h
    rw [check_temperature_threshold, if_neg h]
    exact ⟨by simp [updateCount], rfl⟩

theorem threshold_breach_spec_witness :
    cfgMain.tempThreshold < (36 : ℚ) ∧
    (check_temperature_threshold cfgMain initZero "Delhi" 36).1 "Delhi" =
      initZero "Delhi" + 1 :=
  ⟨by decide,
    (threshold_breach_spec.1 cfgMain initZero "Delhi" 36 (by decide)).1⟩

/-- C9: every breach-count state reachable from process start (all
counts `0`, stepping only through `check_temperature_threshold`) assigns
every city a non-negative count. -/
theorem breach_count_nonneg (cfg : Config) (st : String → Int)
    (h : ReachableBreach cfg st) : ∀ city, 0 ≤ st city := by
  induction h with
  | init => intro _; exact le_refl 0
  | step st' city' temp' h' hc ih =>
    intro city
    by_cases hb : cfg.tempThreshold < temp'
    · rw [check_temperature_threshold, if_pos hb]
      show 0 ≤ updateCount st' city' (st' city' + 1) city
      rw [updateCount]
      by_cases hcity : city = city'
      · rw [if_pos hcity]
        have := ih city'
        omega
      · rw [if_neg hcity]; exact ih city
    · rw [check_temperature_threshold, if_neg hb]
      show 0 ≤ updateCount st' city' 0 city
      rw [updateCount]
      by_cases hcity : city = city'
      · rw [if_pos hcity]
      · rw [if_neg hcity]; exact ih city

theorem breach_count_nonneg_witness :
    0 ≤ (check_temperature_threshold cfgMain initZero "Delhi" 36).1 "Delhi" :=
  breach_count_nonneg cfgMain _
    (ReachableBreach.step initZero "Delhi" 36 ReachableBreach.init (by decide))
    "Delhi"

/-- C6: temperature conversion is a pure function of the raw value and
the configured unit, computing `raw - 273.15` for `celsius` and
`(raw - 273.15) * 9/5 + 32` for `fahrenheit`; for raw input `300.15` the
Celsius output is within `0.1` of `27.0` and the Fahrenheit output is
within `0.1` of `80.6` (both are in fact exact). -/
theorem convert_temperature_spec :
    (∀ (cfg : Config) (k : ℚ), cfg.temperatureUnit = "celsius" →
      convert_temperature cfg k = k - 273.15) ∧
    (∀ (cfg : Config) (k : ℚ), cfg.temperatureUnit = "fahrenheit" →
      convert_temperature cfg k = (k - 273.15) * 9 / 5 + 32) ∧
    |kelvin_to_celsius 300.15 - 27| ≤ 1 / 10 ∧
    |kelvin_to_fahrenheit 300.15 - 80.6| ≤ 1 / 10 := by
  refine ⟨?_, ?_, ?_, ?_⟩
  · intro cfg k hu
    rw [convert_temperature, if_pos hu, kelvin_to_celsius]
  · intro cfg k hu
    rw [convert_temperature, if_neg (by rw [hu]; decide), kelvin_to_fahrenheit]
  · norm_num [kelvin_to_celsius]
  · norm_num [kelvin_to_fahrenheit]

theorem convert_temperature_spec_witness :
    cfgMain.temperatureUnit = "celsius" ∧
    convert_temperature cfgMain 300.15 = 300.15 - 273.15 :=
  ⟨rfl, convert_temperature_spec.1 cfgMain 300.15 rfl⟩

/-- Configuration identical to `cfgMain` except for the temperature unit
string `Celsius` (wrong case). -/
def cfgCapCelsius : Config :=
  ⟨"", 5, "Celsius", defaultCities, defaultEmailConfig, 35, 2⟩

/-- Configuration identical to `cfgMain` except for the temperature unit
string `kelvin` (not in the unit enum). -/
def cfgKelvin : Config :=
  ⟨"", 5, "kelvin", defaultCities, defaultEmailConfig, 35, 2⟩

/-- Configuration identical to `cfgMain` except for the empty temperature
unit string. -/
def cfgEmptyUnit : Config :=
  ⟨"", 5, "", defaultCities, defaultEmailConfig, 35, 2⟩

/-- C10: `convert_temperature` never validates the unit: every unit
string other than exactly `celsius` — including `Celsius`, `kelvin` and
the empty string — takes the Fahrenheit branch, and no error is
possible. -/
theorem convert_unit_fallback :
    (∀ (cfg : Config) (k : ℚ), cfg.temperatureUnit ≠ "celsius" →
      convert_temperature cfg k = kelvin_to_fahrenheit k) ∧
    convert_temperature cfgCapCelsius 300.15 = kelvin_to_fahrenheit 300.15 ∧
    convert_temperature cfgKelvin 300.15 = kelvin_to_fahrenheit 300.15 ∧
    convert_temperature cfgEmptyUnit 300.15 = kelvin_to_fahrenheit 300.15 := by
  refine ⟨?_, ?_, ?_, ?_⟩
  · intro cfg k hu
    rw [convert_temperature, if_neg hu]
  · rw [convert_temperature, if_neg (by decide)]
  · rw [convert_temperature, if_neg (by decide)]
  · rw [convert_temperature, if_neg (by decide)]

theorem convert_unit_fallback_witness :
    cfgCapCelsius.temperatureUnit ≠ "celsius" ∧
    convert_temperature cfgCapCelsius 300.15 = kelvin_to_fahrenheit 300.15 :=
  ⟨by decide, convert_unit_fallback.1 cfgCapCelsius 300.15 (by decide)⟩

/-- The empty process state: no observations, no summaries, all breach
counts zero. -/
def sigma0 : SysState := ⟨[], [], initZero⟩

/-- C7: for a `(city, date)` with no stored observations,
`calculate_daily_summary` computes no summary and writes nothing — the
state is returned unchanged, with no summary row of any kind. -/
theorem empty_day_no_summary (σ : SysState) (city : String) (date : Int)
    (h : get_daily_data σ city date = []) :
    calcSummary city date (get_daily_data σ city date) = none ∧
    calculate_daily_summary σ city date = σ := by
  constructor
  · rw [h]
    rfl
  · rw [calculate_daily_summary, h]
    rfl

theorem empty_day_no_summary_witness :
    get_daily_data sigma0 "Delhi" 0 = [] ∧
    calculate_daily_summary sigma0 "Delhi" 0 = sigma0 :=
  ⟨rfl, (empty_day_no_summary sigma0 "Delhi" 0 rfl).2⟩

/-- C8: alert dispatch never propagates an error: with any falsy
configuration value (empty string or zero port) `send_email_alert` skips
without attempting a send; a raised delivery exception is swallowed
(logged), never re-raised; and with complete configuration and a
successful transport the mail is sent. -/
theorem email_alert_nonfatal :
    (∀ (ec : EmailConfig) (t : SmtpOutcome),
      (ec.smtpServer = "" ∨ ec.smtpPort = 0 ∨ ec.senderEmail = "" ∨
        ec.senderPassword = "" ∨ ec.recipientEmail = "") →
      send_email_alert ec t = .skippedIncomplete) ∧
    (∀ ec : EmailConfig,
      send_email_alert ec .raises = .skippedIncomplete ∨
      send_email_alert ec .raises = .errorLogged) ∧
    (∀ ec : EmailConfig, emailConfigComplete ec = true →
      send_email_alert ec .delivered = .sent) := by
  refine ⟨?_, ?_, ?_⟩
  · intro ec t h
    have hcomp : emailConfigComplete ec = false := by
      rcases h with h | h | h | h | h <;> simp [emailConfigComplete, h]
    simp [send_email_alert, hcomp]
  · intro ec
    by_cases hcomp : emailConfigComplete ec = false
    · exact Or.inl (by simp [send_email_alert, hcomp])
    · exact Or.inr (by simp [send_email_alert, hcomp])
  · intro ec hcomp
    simp [send_email_alert, hcomp]

theorem email_alert_nonfatal_witness :
    defaultEmailConfig.senderEmail = "" ∧
    send_email_alert defaultEmailConfig .raises = .skippedIncomplete :=
  ⟨rfl, email_alert_nonfatal.1 defaultEmailConfig .raises
    (Or.inr (Or.inr (Or.inl rfl)))⟩

/-- A single stored observation: Delhi, day 10 (timestamp
`864100 = 10 * 86400 + 100`), condition `Clear`, temperature 25. -/
def obsIdem : ObsRow := ⟨"Delhi", 864100, "Clear", 25, 26⟩

/-- A store holding only `obsIdem`. -/
def sigmaIdem : SysState := ⟨[obsIdem], [], initZero⟩

/-- The summary `calculate_daily_summary` computes for Delhi on day 10
from `sigmaIdem`. -/
def sumIdem : SummaryRow := ⟨"Delhi", 10, 25, 25, 25, "Clear"⟩

theorem get_daily_data_sigmaIdem :
    get_daily_data sigmaIdem "Delhi" 10 = [obsIdem] := by decide

theorem calcSummary_sigmaIdem :
    calcSummary "Delhi" 10 (get_daily_data sigmaIdem "Delhi" 10) =
      some sumIdem := by
  rw [get_daily_data_sigmaIdem]
  have hdw : dominantWeather [ObsRow.main obsIdem] = some "Clear" := by decide
  simp only [calcSummary, List.map_nil, hdw]
  simp only [sumIdem, obsIdem, listMaxQ, listMinQ, List.foldl_nil,
    List.sum_cons, List.sum_nil, List.length_cons, List.length_nil,
    Option.some.injEq, SummaryRow.mk.injEq]
  norm_num

/-- C1 counterexample: `store_daily_summary` is a plain `INSERT`, so
running `calculate_daily_summary` twice for Delhi on day 10 over the
unchanged single observation `obsIdem` leaves two summary rows for that
`(city, date)` in `daily_summaries` — the second run appends instead of
overwriting, refuting "the store never holds two summary rows for the
same (location, date)". -/
theorem summary_rerun_duplicates :
    ((calculate_daily_summary (calculate_daily_summary sigmaIdem "Delhi" 10)
        "Delhi" 10).summaries.countP
      (fun s => s.city == "Delhi" && s.date == 10)) = 2 := by
  have h1 : calculate_daily_summary sigmaIdem "Delhi" 10 =
      ⟨[obsIdem], [sumIdem], initZero⟩ := by
    rw [calculate_daily_summary, calcSummary_sigmaIdem]
    rfl
  have hgd2 : get_daily_data ⟨[obsIdem], [sumIdem], initZero⟩ "Delhi" 10 =
      [obsIdem] := get_daily_data_sigmaIdem
  have hcs2 : calcSummary "Delhi" 10
      (get_daily_data ⟨[obsIdem], [sumIdem], initZero⟩ "Delhi" 10) =
      some sumIdem := by
    rw [hgd2, ← get_daily_data_sigmaIdem]
    exact calcSummary_sigmaIdem
  have h2 : calculate_daily_summary
      (⟨[obsIdem], [sumIdem], initZero⟩ : SysState) "Delhi" 10 =
      ⟨[obsIdem], [sumIdem, sumIdem], initZero⟩ := by
    rw [calculate_daily_summary, hcs2]
    rfl
  rw [h1, h2]
  decide

/-- C1 amended: re-running `calculate_daily_summary` for the same
`(city, date)` with unchanged observations recomputes the identical
summary value, but each run appends: after two runs the `daily_summaries`
table holds the prior rows plus two identical copies of the summary
(append, not overwrite). -/
theorem summary_rerun_appends_identical (σ : SysState) (city : String)
    (date : Int) (s : SummaryRow)
    (h : calcSummary city date (get_daily_data σ city date) = some s) :
    (calculate_daily_summary (calculate_daily_summary σ city date)
        city date).summaries = σ.summaries ++ [s, s] := by
  have h1 : calculate_daily_summary σ city date = store_daily_summary σ s := by
    rw [calculate_daily_summary, h]
  have hgd : get_daily_data (store_daily_summary σ s) city date =
      get_daily_data σ city date := rfl
  rw [h1, calculate_daily_summary, hgd, h]
  show (σ.summaries ++ [s]) ++ [s] = σ.summaries ++ [s, s]
  rw [List.append_assoc]
  rfl

theorem summary_rerun_appends_identical_witness :
    (calculate_daily_summary (calculate_daily_summary sigmaIdem "Delhi" 10)
        "Delhi" 10).summaries = sigmaIdem.summaries ++ [sumIdem, sumIdem] :=
  summary_rerun_appends_identical sigmaIdem "Delhi" 10 sumIdem
    calcSummary_sigmaIdem

theorem calcSummary_cons (city : String) (date : Int) (r0 : ObsRow)
    (rs : List ObsRow) (d : String)
    (hd : dominantWeather (r0.main :: rs.map ObsRow.main) = some d) :
    calcSummary city date (r0 :: rs) = some ⟨city, date,
      (r0.temp :: rs.map ObsRow.temp).sum /
        ((r0.temp :: rs.map ObsRow.temp).length : ℚ),
      listMaxQ r0.temp (rs.map ObsRow.temp),
      listMinQ r0.temp (rs.map ObsRow.temp), d⟩ := by
  simp only [calcSummary]
  rw [hd]

/-- C2 amended: for every nonempty observation list the dominant
condition is a condition of the list, attains the maximal frequency, and
has maximal severity among all conditions attaining the maximal
frequency (so a unique strict-majority condition always wins, and a
frequency tie of any width goes to a tied condition of maximal
severity); what breaks the original claim is only that an unranked
condition, whose severity 0 equals that of the ranked `Clear`, can beat
`Clear` on a tie by occurring first (see the counterexample), ties of
equal severity being resolved toward the earliest first occurrence. -/
theorem daily_summary_dominant (city : String) (date : Int) (r0 : ObsRow)
    (rs : List ObsRow) :
    ∃ s, calcSummary city date (r0 :: rs) = some s ∧
      s.dominantWeather ∈ (r0 :: rs).map ObsRow.main ∧
      (∀ c ∈ (r0 :: rs).map ObsRow.main,
        ((r0 :: rs).map ObsRow.main).count c ≤
          ((r0 :: rs).map ObsRow.main).count s.dominantWeather) ∧
      (∀ c ∈ (r0 :: rs).map ObsRow.main,
        ((r0 :: rs).map ObsRow.main).count c =
          ((r0 :: rs).map ObsRow.main).count s.dominantWeather →
        weatherSeverity c ≤ weatherSeverity s.dominantWeather) := by
  obtain ⟨d, hd, hmem, hcnt, hsev⟩ :=
    dominantWeather_spec (r0.main :: rs.map ObsRow.main) (by simp)
  refine ⟨_, calcSummary_cons city date r0 rs d hd, ?_, ?_, ?_⟩
  · exact hmem
  · exact hcnt
  · exact hsev

/-- An observation with the unranked condition string `Fog`. -/
def rowFog : ObsRow := ⟨"Delhi", 0, "Fog", 20, 20⟩

/-- An observation with the ranked condition string `Clear`. -/
def rowClear : ObsRow := ⟨"Delhi", 3600, "Clear", 21, 21⟩

/-- C2 counterexample: on the frequency tie `[Fog, Clear]` the code
picks the unranked `Fog` as dominant, although `Clear` is in the
severity table — the claim "any condition string outside this table ...
loses ties against any ranked condition" fails, because `Clear` is
ranked with severity 0, equal to the unranked default, and Python's
`max` keeps the earlier element on key ties. -/
theorem dominant_unranked_wins :
    (calcSummary "Delhi" 0 [rowFog, rowClear]).map SummaryRow.dominantWeather =
      some "Fog" ∧
    weatherSeverity "Fog" = 0 ∧ weatherSeverity "Clear" = 0 ∧
    "Fog" ≠ "Clear" :=
  ⟨rfl, rfl, rfl, by decide⟩

theorem daily_summary_dominant_witness :
    ∃ s, calcSummary "Delhi" 0 [rowFog, rowClear] = some s ∧
      s.dominantWeather ∈ [rowFog, rowClear].map ObsRow.main := by
  obtain ⟨s, hs, hmem, -, -⟩ :=
    daily_summary_dominant "Delhi" 0 rowFog [rowClear]
  exact ⟨s, hs, hmem⟩

/-- The four mock observations of the repository's daily-summary test:
temperatures 25, 27, 23, 22 with conditions Clear, Clear, Rain, Rain. -/
def rowsStats : List ObsRow :=
  [⟨"Delhi", 1635724800, "Clear", 25, 26⟩,
   ⟨"Delhi", 1635728400, "Clear", 27, 28⟩,
   ⟨"Delhi", 1635732000, "Rain", 23, 24⟩,
   ⟨"Delhi", 1635735600, "Rain", 22, 23⟩]

/-- C5: for every nonempty observation list the summary's average
temperature is the exact arithmetic mean (sum divided by the number of
observations, unrounded), and its max/min temperatures are members of
the temperature list bounding it from above respectively below; on
temperatures `[25, 27, 23, 22]` this gives exactly avg `24.25`,
max `27`, min `22` (with dominant condition `Rain`). -/
theorem daily_summary_stats :
    (∀ (city : String) (date : Int) (r0 : ObsRow) (rs : List ObsRow),
      ∃ s, calcSummary city date (r0 :: rs) = some s ∧
        s.avgTemp = ((r0 :: rs).map ObsRow.temp).sum /
          (((r0 :: rs).length : ℚ)) ∧
        s.maxTemp ∈ (r0 :: rs).map ObsRow.temp ∧
        (∀ t ∈ (r0 :: rs).map ObsRow.temp, t ≤ s.maxTemp) ∧
        s.minTemp ∈ (r0 :: rs).map ObsRow.temp ∧
        (∀ t ∈ (r0 :: rs).map ObsRow.temp, s.minTemp ≤ t)) ∧
    calcSummary "Delhi" 19687 rowsStats =
      some ⟨"Delhi", 19687, 24.25, 27, 22, "Rain"⟩ := by
  constructor
  · intro city date r0 rs
    obtain ⟨d, hd, -, -, -⟩ :=
      dominantWeather_spec (r0.main :: rs.map ObsRow.main) (by simp)
    refine ⟨_, calcSummary_cons city date r0 rs d hd, ?_, ?_, ?_, ?_, ?_⟩
    · show (r0.temp :: rs.map ObsRow.temp).sum /
          ((r0.temp :: rs.map ObsRow.temp).length : ℚ) =
        ((r0 :: rs).map ObsRow.temp).sum / (((r0 :: rs).length : ℚ))
      simp [List.length_map]
    · show listMaxQ r0.temp (rs.map ObsRow.temp) ∈ (r0 :: rs).map ObsRow.temp
      rcases listMaxQ_eq_or_mem (rs.map ObsRow.temp) r0.temp with h | h
      · rw [h, List.map_cons]; exact List.mem_cons_self _ _
      · rw [List.map_cons]; exact List.mem_cons_of_mem _ h
    · intro t ht
      rw [List.map_cons] at ht
      rcases List.mem_cons.mp ht with heq | ht
      · rw [heq]; exact (le_listMaxQ (rs.map ObsRow.temp) r0.temp).1
      · exact (le_listMaxQ (rs.map ObsRow.temp) r0.temp).2 t ht
    · show listMinQ r0.temp (rs.map ObsRow.temp) ∈ (r0 :: rs).map ObsRow.temp
      rcases listMinQ_eq_or_mem (rs.map ObsRow.temp) r0.temp with h | h
      · rw [h, List.map_cons]; exact List.mem_cons_self _ _
      · rw [List.map_cons]; exact List.mem_cons_of_mem _ h
    · intro t ht
      rw [List.map_cons] at ht
      rcases List.mem_cons.mp ht with heq | ht
      · rw [heq]; exact (listMinQ_le (rs.map ObsRow.temp) r0.temp).1
      · exact (listMinQ_le (rs.map ObsRow.temp) r0.temp).2 t ht
  · have hdw : dominantWeather ["Clear", "Clear", "Rain", "Rain"] =
        some "Rain" := by decide
    have hc := calcSummary_cons "Delhi" 19687
      (⟨"Delhi", 1635724800, "Clear", 25, 26⟩ : ObsRow)
      [⟨"Delhi", 1635728400, "Clear", 27, 28⟩,
       ⟨"Delhi", 1635732000, "Rain", 23, 24⟩,
       ⟨"Delhi", 1635735600, "Rain", 22, 23⟩] "Rain" hdw
    rw [show rowsStats =
      (⟨"Delhi", 1635724800, "Clear", 25, 26⟩ : ObsRow) ::
      [⟨"Delhi", 1635728400, "Clear", 27, 28⟩,
       ⟨"Delhi", 1635732000, "Rain", 23, 24⟩,
       ⟨"Delhi", 1635735600, "Rain", 22, 23⟩] from rfl, hc]
    simp only [Option.some.injEq, SummaryRow.mk.injEq]
    refine ⟨trivial, trivial, ?_, ?_, ?_, trivial⟩
    · show ((25 : ℚ) + (27 + (23 + (22 + 0)))) / ((4 : Nat) : ℚ) = 24.25
      norm_num
    · show listMaxQ 25 [27, 23, 22] = 27
      rw [listMaxQ]
      norm_num [List.foldl_cons, max_def]
    · show listMinQ 25 [27, 23, 22] = 22
      rw [listMinQ]
      norm_num [List.foldl_cons, min_def]

theorem daily_summary_stats_witness :
    ∃ s, calcSummary "Delhi" 0 [rowFog, rowClear] = some s ∧
      s.avgTemp = ([rowFog, rowClear].map ObsRow.temp).sum /
        (([rowFog, rowClear].length : ℚ)) := by
  obtain ⟨s, hs, havg, -, -, -, -⟩ :=
    daily_summary_stats.1 "Delhi" 0 rowFog [rowClear]
  exact ⟨s, hs, havg⟩

/-- A two-city configuration for cycle-level statements. -/
def cfgTwo : Config :=
  ⟨"", 5, "celsius", ["Delhi", "Mumbai"], defaultEmailConfig, 35, 2⟩

/-- A schema-valid payload: all fields the pipeline reads are present. -/
def payloadGood : Payload := ⟨some 300, some 300, some "Clear", some 0, false⟩

/-- A malformed but JSON-parseable payload: the dict is non-empty (it has
a `weather` list and a `dt`) but has no `main` key, so
`data['main']['temp']` raises `KeyError`. -/
def payloadBad : Payload := ⟨none, none, some "Clear", some 0, false⟩

/-- Provider behavior where Delhi answers HTTP 200 with the malformed
payload and every other city answers HTTP 200 with the good payload. -/
def fetchesBadDelhi : String → FetchAttempt :=
  fun c => if c = "Delhi" then .response 200 (some payloadBad)
           else .response 200 (some payloadGood)

/-- Provider behavior where Delhi's request raises a transport error and
every other city answers HTTP 200 with the good payload. -/
def fetchesFailDelhi : String → FetchAttempt :=
  fun c => if c = "Delhi" then .transportError
           else .response 200 (some payloadGood)

/-- C4 counterexample: a JSON-parseable payload that lacks the `main`
field is a malformed payload in the claim's sense, yet
`fetch_weather_data` does not turn it into `None` — it hands it to
`process_weather_data`, whose dict access raises, and the uncaught
exception aborts the cycle, so Mumbai's pipeline does not run in that
cycle. -/
theorem malformed_payload_not_isolated :
    (fetch_weather_data (fetchesBadDelhi "Delhi")).isSome = true ∧
    cycleFails (runCycleList cfgTwo fetchesBadDelhi sigma0
      ["Delhi", "Mumbai"]) = true :=
  ⟨rfl, rfl⟩

/-- C4 amended: every exception raised inside the `try` block of
`fetch_weather_data` — a transport error, an HTTP status of 400 or above
raised by `raise_for_status`, or a JSON-decode failure — yields `None`;
a `None` fetch makes `process_weather_data` a no-op, and the cycle loop
then continues with the remaining cities unchanged (concretely: with
Delhi's transport failing, Mumbai's fetch/store/threshold pipeline still
runs and stores Mumbai's observation).  Only a parseable payload with
missing fields escapes this isolation (see the counterexample). -/
theorem fetch_failure_isolation :
    fetch_weather_data .transportError = none ∧
    (∀ (status : Nat) (body : Option Payload), 400 ≤ status →
      fetch_weather_data (.response status body) = none) ∧
    (∀ status : Nat, fetch_weather_data (.response status none) = none) ∧
    (∀ (cfg : Config) (σ : SysState) (city : String),
      process_weather_data cfg σ city none = .ok σ) ∧
    (∀ (cfg : Config) (fetches : String → FetchAttempt) (σ : SysState)
      (city : String) (rest : List String),
      fetch_weather_data (fetches city) = none →
      runCycleList cfg fetches σ (city :: rest) =
        runCycleList cfg fetches σ rest) ∧
    cycleObsCities (runCycleList cfgTwo fetchesFailDelhi sigma0
      ["Delhi", "Mumbai"]) = some ["Mumbai"] := by
  refine ⟨rfl, ?_, ?_, ?_, ?_, ?_⟩
  · intro status body h
    rw [fetch_weather_data, if_pos h]
  · intro status
    by_cases h : 400 ≤ status
    · rw [fetch_weather_data, if_pos h]
    · rw [fetch_weather_data, if_neg h]
  · intro cfg σ city
    rfl
  · intro cfg fetches σ city rest h
    rw [runCycleList, h]
    rfl
  · rfl

theorem fetch_failure_isolation_witness :
    fetch_weather_data (fetchesFailDelhi "Delhi") = none ∧
    runCycleList cfgTwo fetchesFailDelhi sigma0 ["Delhi", "Mumbai"] =
      runCycleList cfgTwo fetchesFailDelhi sigma0 ["Mumbai"] :=
  ⟨rfl, fetch_failure_isolation.2.2.2.2.1 cfgTwo fetchesFailDelhi sigma0
    "Delhi" ["Mumbai"] rfl⟩
